import Mathlib

/-
Verification of the servicenow-mcp repository: a shallow embedding of
`src/servicenow_mcp/server_sse.py` (session-header shim, session-header
middleware, authentication-configuration dispatch) and
`scripts/get_p01_incidents.py` (incident REST query script), with theorems
settling the specified properties.
-/

namespace ServicenowMcp

/-- An ASGI message frame as seen by the SSE send shim. The Python frame is a
dict; the fields here are the keys the code and the surrounding transport
touch. A missing "headers" key is `none`; `message.get("headers", [])` is
`headers.getD []`. Header names and values are byte strings in ASGI; they are
modelled as `String`. -/
structure AsgiMessage where
  type : String
  headers : Option (List (String × String)) := none
  status : Option Nat := none
  body : Option String := none
  more_body : Option Bool := none
deriving DecidableEq

/-- A Starlette response as seen by the middleware: status code, header list
(raw name-value pairs, as in `MutableHeaders._list`), body. -/
structure Response where
  status_code : Nat
  headers : List (String × String)
  body : String
deriving DecidableEq

/-- The SSE send shim `send_with_headers` of `handle_sse` in
`server_sse.py`: when the session identifier is truthy (a non-empty string)
and the frame has type "http.response.start", the two session header entries
are appended to the frame header list (`headers.extend([...])`); every other
frame is forwarded unchanged. `session_id` is `None` or a string, so it is an
`Option String`; the Python truthiness test `if session_id` is the non-empty
check on the `some` case. -/
def send_with_headers (session_id : Option String) (message : AsgiMessage) :
    AsgiMessage :=
  match session_id with
  | none => message
  | some sid =>
    if sid ≠ "" ∧ message.type = "http.response.start" then
      { message with
        headers := some ((message.headers.getD []) ++
          [("x-mcp-session-id", sid), ("mcp-session-id", sid)]) }
    else message

/-- ASCII lowercasing of a header name, the effect of the Python
`key.lower().encode("latin-1")` on the ASCII header names used here. -/
def strLower (s : String) : String := ⟨s.data.map Char.toLower⟩

/-- Starlette `MutableHeaders.__setitem__` on the raw header list: the key is
lowercased; the first entry whose name equals the lowercased key is replaced
in place and every later duplicate is removed; when no entry matches, the new
entry is appended. -/
def setHeader : List (String × String) → String → String → List (String × String)
  | [], key, value => [(strLower key, value)]
  | p :: rest, key, value =>
    if p.1 = strLower key then
      (strLower key, value) :: rest.filter (fun q => q.1 != strLower key)
    else
      p :: setHeader rest key value

/-- Starlette `Headers.__getitem__` on the raw header list: the value of the
first entry whose name equals the lowercased key. -/
def getHeader (l : List (String × String)) (key : String) : Option String :=
  (l.find? (fun p => p.1 == strLower key)).map (fun p => p.2)

/-- Number of header entries whose name equals `k` exactly. -/
def countKey (l : List (String × String)) (k : String) : Nat :=
  l.countP (fun p => p.1 == k)

/-- `SessionHeaderMiddleware.dispatch` in `server_sse.py`: after the inner
handler produced its response, when the session identifier is truthy the two
session headers are set on the response (Starlette item assignment, which
replaces rather than appends); otherwise the response is returned unchanged. -/
def dispatch (session_id : Option String) (response : Response) : Response :=
  match session_id with
  | none => response
  | some sid =>
    if sid ≠ "" then
      { response with
        headers :=
          setHeader (setHeader response.headers "x-mcp-session-id" sid)
            "mcp-session-id" sid }
    else response

/-- The composed pipeline an SSE "http.response.start" frame goes through in
the application built by `create_starlette_app`: the frame is first rewritten
by the send shim of the `/sse` endpoint, then `BaseHTTPMiddleware` collects it
into a response on which `SessionHeaderMiddleware.dispatch` runs. The result
is the final response whose headers reach the client. -/
def sse_start_response (session_id : Option String) (message : AsgiMessage) :
    Response :=
  dispatch session_id
    { status_code := (send_with_headers session_id message).status.getD 200
    , headers := (send_with_headers session_id message).headers.getD []
    , body := "" }

/-- The three authentication kinds of `servicenow_mcp.utils.config.AuthType`,
as named at the call sites in `server_sse.py`. -/
inductive AuthType
  | BASIC
  | OAUTH
  | API_KEY
deriving DecidableEq

/-- Modelled from the spec: `servicenow_mcp.utils.config.BasicAuthConfig` is
not part of the corpus; per the spec data model the Basic variant carries a
username and a password. -/
structure BasicAuthConfig where
  username : String
  password : String
deriving DecidableEq

/-- Modelled from the spec: `servicenow_mcp.utils.config.OAuthConfig` is not
part of the corpus; per the spec data model the OAuth variant carries client
credentials, user credentials and an optional token URL. -/
structure OAuthConfig where
  client_id : String
  client_secret : String
  username : String
  password : String
  token_url : Option String := none
deriving DecidableEq

/-- Modelled from the spec: `servicenow_mcp.utils.config.ApiKeyConfig` is not
part of the corpus; per the spec data model the ApiKey variant carries the
key and the header name it travels under. -/
structure ApiKeyConfig where
  api_key : String
  header_name : String
deriving DecidableEq

/-- Modelled from the spec: `servicenow_mcp.utils.config.AuthConfig` is not
part of the corpus; per the spec data model it is a kind tag together with at
most one populated variant payload, the payloads not passed at construction
staying `none`. -/
structure AuthConfig where
  type : AuthType
  basic : Option BasicAuthConfig := none
  oauth : Option OAuthConfig := none
  api_key : Option ApiKeyConfig := none
deriving DecidableEq

/-- Modelled from the spec: `servicenow_mcp.utils.config.ServerConfig` is not
part of the corpus; per the spec data model it aggregates the instance URL,
the resolved AuthConfig and a debug flag. -/
structure ServerConfig where
  instance_url : String
  auth : AuthConfig
  debug : Bool := false
deriving DecidableEq

/-- The keyword arguments `create_servicenow_mcp` may receive; a keyword that
was not passed is `none`. A Python subscript `auth_params[k]` is `getParam`
below (KeyError when missing), `auth_params.get(k)` is the plain field, and
`auth_params.get(k, d)` is `getD d` on the field. -/
structure AuthParams where
  username : Option String := none
  password : Option String := none
  client_id : Option String := none
  client_secret : Option String := none
  token_url : Option String := none
  api_key : Option String := none
  header_name : Option String := none
deriving DecidableEq

/-- The exceptions `create_servicenow_mcp` can raise: a KeyError from a
missing required keyword, or the ValueError of the unsupported-kind
branch. -/
inductive CreateError
  | keyError (key : String)
  | valueError (msg : String)
deriving DecidableEq

/-- Python subscript access `auth_params[key]`: the value when present, a
KeyError otherwise. -/
def getParam (v : Option String) (key : String) : Except CreateError String :=
  match v with
  | some s => Except.ok s
  | none => Except.error (CreateError.keyError key)

/-- `create_servicenow_mcp` of `server_sse.py`: dispatch on the `auth_type`
string, building the AuthConfig of the matching kind from the keyword
parameters and then the ServerConfig around it; any other `auth_type` raises
a ValueError whose message is "Unsupported auth_type: " followed by the tag.
The returned `ServiceNowSSEMCP` object is represented by the ServerConfig it
is constructed from. -/
def create_servicenow_mcp (instance_url : String) (auth_type : String)
    (auth_params : AuthParams) : Except CreateError ServerConfig :=
  if auth_type = "basic" then do
    let u ← getParam auth_params.username "username"
    let pw ← getParam auth_params.password "password"
    Except.ok { instance_url := instance_url
              , auth := { type := AuthType.BASIC
                        , basic := some { username := u, password := pw } } }
  else if auth_type = "oauth" then do
    let cid ← getParam auth_params.client_id "client_id"
    let cs ← getParam auth_params.client_secret "client_secret"
    let u ← getParam auth_params.username "username"
    let pw ← getParam auth_params.password "password"
    Except.ok { instance_url := instance_url
              , auth := { type := AuthType.OAUTH
                        , oauth := some { client_id := cid, client_secret := cs
                                        , username := u, password := pw
                                        , token_url := auth_params.token_url } } }
  else if auth_type = "api_key" then do
    let k ← getParam auth_params.api_key "api_key"
    Except.ok { instance_url := instance_url
              , auth := { type := AuthType.API_KEY
                        , api_key := some { api_key := k
                                          , header_name :=
                                              auth_params.header_name.getD
                                                "X-ServiceNow-API-Key" } } }
  else
    Except.error (CreateError.valueError ("Unsupported auth_type: " ++ auth_type))

/-- The api_key branch of `main` in `server_sse.py` resolves the header name
keyword from the environment before calling `create_servicenow_mcp`:
`os.getenv` of SERVICENOW_API_KEY_HEADER with the default
X-ServiceNow-API-Key. -/
def main_api_key_header (getenv : String → Option String) : String :=
  (getenv "SERVICENOW_API_KEY_HEADER").getD "X-ServiceNow-API-Key"

/-- One element of the "result" array of the incident query, restricted to
the three fields `get_p01_incidents.py` reads. -/
structure Incident where
  number : String
  short_description : String
  opened_at : String
deriving DecidableEq

/-- The parsed JSON body of the upstream reply, restricted to the one key the
script reads: the "result" array when present. -/
structure ResponseJson where
  result : Option (List Incident) := none
deriving DecidableEq

/-- The upstream HTTP reply as the script consumes it: numeric status code,
raw body text and parsed JSON body. -/
structure HttpReply where
  status_code : Nat
  text : String
  json : ResponseJson
deriving DecidableEq

/-- What the tail of `get_p01_incidents.py` prints: on success the count line
and one line per incident, on failure the single failure line. -/
inductive ScriptOutput
  | success (header : String) (lines : List String)
  | failure (msg : String)
deriving DecidableEq

/-- The per-incident line the script prints. -/
def formatIncident (inc : Incident) : String :=
  "Number: " ++ inc.number ++ ", Short Description: " ++ inc.short_description ++
    ", Opened At: " ++ inc.opened_at

/-- The status dispatch at the end of `get_p01_incidents.py`: status 200
reads the "result" array (defaulting to empty) and prints the incident lines;
any other status prints the formatted failure message carrying the status
code and the body text. -/
def report_incidents (response : HttpReply) : ScriptOutput :=
  if response.status_code = 200 then
    let incidents := response.json.result.getD []
    ScriptOutput.success
      ("Found " ++ toString incidents.length ++ " P01 incidents in the last month:")
      (incidents.map formatIncident)
  else
    ScriptOutput.failure
      ("Failed to fetch incidents: " ++ toString response.status_code ++ " - " ++
        response.text)

/-- Civil date from a count of days since 1970-01-01 in the proleptic
Gregorian calendar, the conversion the Python datetime library performs when
formatting; the standard era-based algorithm, specialised to the nonnegative
day counts used here. Returns (year, month, day). -/
def civilFromDays (z : Nat) : Nat × Nat × Nat :=
  let zz := z + 719468
  let era := zz / 146097
  let doe := zz % 146097
  let yoe := (doe - doe / 1460 + doe / 36524 - doe / 146096) / 365
  let y := yoe + era * 400
  let doy := doe - (365 * yoe + yoe / 4 - yoe / 100)
  let mp := (5 * doy + 2) / 153
  let d := doy - (153 * mp + 2) / 5 + 1
  let m := if mp < 10 then mp + 3 else mp - 9
  (if m ≤ 2 then y + 1 else y, m, d)

/-- Zero-padding to two digits, as the strftime fields %m and %d produce. -/
def pad2 (n : Nat) : String :=
  if n < 10 then "0" ++ toString n else toString n

/-- Zero-padding to four digits, as the strftime field %Y produces for the
years in range here. -/
def pad4 (n : Nat) : String :=
  if n < 10 then "000" ++ toString n
  else if n < 100 then "00" ++ toString n
  else if n < 1000 then "0" ++ toString n
  else toString n

/-- The strftime format string of the script applied to a (year, month, day)
triple: year, month and day zero-padded and joined with dashes. -/
def formatDate : Nat × Nat × Nat → String
  | (y, m, d) => pad4 y ++ "-" ++ pad2 m ++ "-" ++ pad2 d

/-- `one_month_ago` of `get_p01_incidents.py`: the current instant, given as
days since the Unix epoch, moved back by timedelta(days=30) and formatted
with the strftime pattern %Y-%m-%d. -/
def one_month_ago (nowDays : Nat) : String :=
  formatDate (civilFromDays (nowDays - 30))

/-- `query` of `get_p01_incidents.py`: the sysparm_query filter string. -/
def query (nowDays : Nat) : String :=
  "priority=P01^opened_at>=" ++ one_month_ago nowDays

/-- `url` of `get_p01_incidents.py`: the full incident-table request URL. -/
def incidents_url (instance_url : String) (nowDays : Nat) : String :=
  instance_url ++ "/api/now/table/incident?sysparm_query=" ++ query nowDays ++
    "&sysparm_limit=10"

/-- Filtering away the entries named `k` leaves no entry named `k`. -/
theorem countKey_filter_ne (l : List (String × String)) (k : String) :
    countKey (l.filter (fun q => q.1 != k)) k = 0 := by
  rw [countKey, List.countP_filter]
  apply List.countP_eq_zero.mpr
  intro a _
  by_cases ha : a.1 = k <;> simp [ha, bne]

/-- Filtering away the entries named `kf` keeps every entry named a different
`k`, so the count of `k` is unchanged. -/
theorem countKey_filter_other (l : List (String × String)) (kf k : String)
    (h : k ≠ kf) :
    countKey (l.filter (fun q => q.1 != kf)) k = countKey l k := by
  rw [countKey, List.countP_filter, countKey]
  apply List.countP_congr
  intro a _
  by_cases ha : a.1 = k
  · simp [ha, bne, h]
  · simp [ha]

/-- After `setHeader l key value`, exactly one entry carries the lowercased
key. -/
theorem countKey_setHeader_self (l : List (String × String)) (key value : String) :
    countKey (setHeader l key value) (strLower key) = 1 := by
  induction l with
  | nil => simp [setHeader, countKey]
  | cons p rest ih =>
    by_cases h : p.1 = strLower key
    · have h0 := countKey_filter_ne rest (strLower key)
      simp only [countKey] at h0 ⊢
      simp [setHeader, h, List.countP_cons, h0]
    · have hb : (p.1 == strLower key) = false := by
        simp only [beq_eq_false_iff_ne]; exact h
      simp only [countKey] at ih ⊢
      simp [setHeader, h, List.countP_cons, ih, hb]

/-- `setHeader` with one key does not change how many entries carry a
different key. -/
theorem countKey_setHeader_other (l : List (String × String)) (key value k : String)
    (h : k ≠ strLower key) :
    countKey (setHeader l key value) k = countKey l k := by
  have hlk : (strLower key == k) = false := by
    simp only [beq_eq_false_iff_ne]
    exact fun he => h he.symm
  induction l with
  | nil => simp [setHeader, countKey, hlk]
  | cons p rest ih =>
    by_cases hp : p.1 = strLower key
    · have hpk : (p.1 == k) = false := by rw [hp]; exact hlk
      have hfilter := countKey_filter_other rest (strLower key) k h
      simp only [countKey] at hfilter ⊢
      simp [setHeader, hp, List.countP_cons, hpk, hlk, hfilter]
    · simp only [countKey] at ih ⊢
      simp [setHeader, hp, List.countP_cons, ih]

/-- After `setHeader l key value`, looking the key up yields the new value. -/
theorem getHeader_setHeader_self (l : List (String × String)) (key value : String) :
    getHeader (setHeader l key value) key = some value := by
  induction l with
  | nil => simp [setHeader, getHeader]
  | cons p rest ih =>
    by_cases h : p.1 = strLower key
    · simp only [setHeader, if_pos h, getHeader]
      rw [List.find?_cons_of_pos (p := fun q : String × String => q.1 == strLower key)
        _ (by simp)]
      rfl
    · simp only [setHeader, if_neg h, getHeader] at ih ⊢
      rw [List.find?_cons_of_neg (p := fun q : String × String => q.1 == strLower key)
        _ (by simpa using h)]
      exact ih

/-- Removing the entries named `kf` does not change the first entry named a
different `kq`. -/
theorem find_filter_ne (l : List (String × String)) (kq kf : String) (h : kq ≠ kf) :
    (l.filter (fun q => q.1 != kf)).find? (fun p => p.1 == kq) =
      l.find? (fun p => p.1 == kq) := by
  induction l with
  | nil => rfl
  | cons p rest ih =>
    by_cases hp : p.1 = kf
    · have hpq : ¬ ((p.1 == kq) = true) := by
        simp only [beq_iff_eq]
        rw [hp]; exact fun he => h he.symm
      have hdrop : (p :: rest).filter (fun q => q.1 != kf) =
          rest.filter (fun q => q.1 != kf) := by
        simp [List.filter_cons, bne, hp]
      rw [hdrop,
        List.find?_cons_of_neg (p := fun q : String × String => q.1 == kq) _ hpq]
      exact ih
    · have hkeep : (p :: rest).filter (fun q => q.1 != kf) =
          p :: rest.filter (fun q => q.1 != kf) := by
        simp [List.filter_cons, bne, hp]
      rw [hkeep]
      by_cases hk : p.1 = kq
      · rw [List.find?_cons_of_pos (p := fun q : String × String => q.1 == kq)
            _ (by simpa using hk),
          List.find?_cons_of_pos (p := fun q : String × String => q.1 == kq)
            _ (by simpa using hk)]
      · rw [List.find?_cons_of_neg (p := fun q : String × String => q.1 == kq)
            _ (by simpa using hk),
          List.find?_cons_of_neg (p := fun q : String × String => q.1 == kq)
            _ (by simpa using hk)]
        exact ih

/-- `setHeader` with one key does not change the lookup of a different
key. -/
theorem getHeader_setHeader_other (l : List (String × String)) (key value k : String)
    (h : strLower k ≠ strLower key) :
    getHeader (setHeader l key value) k = getHeader l k := by
  have hfk : ¬ ((strLower key == strLower k) = true) := by
    simp only [beq_iff_eq]
    exact fun he => h he.symm
  induction l with
  | nil =>
    simp only [setHeader, getHeader]
    rw [List.find?_cons_of_neg (p := fun q : String × String => q.1 == strLower k)
      _ hfk]
  | cons p rest ih =>
    by_cases hp : p.1 = strLower key
    · have hpk : ¬ ((p.1 == strLower k) = true) := by rw [hp]; simpa using hfk
      simp only [setHeader, if_pos hp, getHeader]
      rw [List.find?_cons_of_neg (p := fun q : String × String => q.1 == strLower k)
          _ hfk,
        List.find?_cons_of_neg (p := fun q : String × String => q.1 == strLower k)
          _ hpk,
        find_filter_ne rest (strLower k) (strLower key) h]
    · simp only [setHeader, if_neg hp, getHeader] at ih ⊢
      by_cases hk : p.1 = strLower k
      · rw [List.find?_cons_of_pos (p := fun q : String × String => q.1 == strLower k)
            _ (by simpa using hk),
          List.find?_cons_of_pos (p := fun q : String × String => q.1 == strLower k)
            _ (by simpa using hk)]
      · rw [List.find?_cons_of_neg (p := fun q : String × String => q.1 == strLower k)
            _ (by simpa using hk),
          List.find?_cons_of_neg (p := fun q : String × String => q.1 == strLower k)
            _ (by simpa using hk)]
        exact ih

/-- The two injected header names are already lowercase. -/
theorem xkey_lower : strLower "x-mcp-session-id" = "x-mcp-session-id" := by decide

/-- The duplicate header name is already lowercase. -/
theorem mkey_lower : strLower "mcp-session-id" = "mcp-session-id" := by decide

/-- Setting both session headers on any header list leaves exactly one entry
under each of the two names. -/
theorem pipeline_counts (hs0 : List (String × String)) (sid : String) :
    countKey (setHeader (setHeader hs0 "x-mcp-session-id" sid) "mcp-session-id" sid)
      "x-mcp-session-id" = 1 ∧
    countKey (setHeader (setHeader hs0 "x-mcp-session-id" sid) "mcp-session-id" sid)
      "mcp-session-id" = 1 := by
  refine ⟨?_, ?_⟩
  · have h2 := countKey_setHeader_other (setHeader hs0 "x-mcp-session-id" sid)
      "mcp-session-id" sid "x-mcp-session-id" (by decide)
    have h1 := countKey_setHeader_self hs0 "x-mcp-session-id" sid
    rw [xkey_lower] at h1
    rw [h2, h1]
  · have h1 := countKey_setHeader_self (setHeader hs0 "x-mcp-session-id" sid)
      "mcp-session-id" sid
    rwa [mkey_lower] at h1

/-- C1: with a non-empty session identifier, every frame of type
"http.response.start" leaving the SSE shim carries both session header names
paired with the identifier, and on every response leaving the middleware a
lookup of either name yields the identifier. -/
theorem session_headers_both_present (sid : String) (m : AsgiMessage) (r : Response)
    (hs : sid ≠ "") (hm : m.type = "http.response.start") :
    (("x-mcp-session-id", sid) ∈ (send_with_headers (some sid) m).headers.getD [] ∧
      ("mcp-session-id", sid) ∈ (send_with_headers (some sid) m).headers.getD []) ∧
    getHeader (dispatch (some sid) r).headers "x-mcp-session-id" = some sid ∧
    getHeader (dispatch (some sid) r).headers "mcp-session-id" = some sid := by
  refine ⟨?_, ?_, ?_⟩
  · simp only [send_with_headers]
    rw [if_pos ⟨hs, hm⟩]
    simp
  · simp only [dispatch]
    rw [if_pos hs]
    have h2 := getHeader_setHeader_other (setHeader r.headers "x-mcp-session-id" sid)
      "mcp-session-id" sid "x-mcp-session-id" (by decide)
    have h1 := getHeader_setHeader_self r.headers "x-mcp-session-id" sid
    rw [h2, h1]
  · simp only [dispatch]
    rw [if_pos hs]
    exact getHeader_setHeader_self _ "mcp-session-id" sid

/-- Witness for C1 at the session identifier "abc", an empty start frame and
an empty response. -/
theorem session_headers_both_present_witness :
    ((("x-mcp-session-id", "abc") ∈
        (send_with_headers (some "abc") { type := "http.response.start" }).headers.getD [] ∧
      ("mcp-session-id", "abc") ∈
        (send_with_headers (some "abc") { type := "http.response.start" }).headers.getD []) ∧
      getHeader (dispatch (some "abc")
        { status_code := 200, headers := [], body := "" }).headers
        "x-mcp-session-id" = some "abc" ∧
      getHeader (dispatch (some "abc")
        { status_code := 200, headers := [], body := "" }).headers
        "mcp-session-id" = some "abc") :=
  session_headers_both_present "abc" { type := "http.response.start" }
    { status_code := 200, headers := [], body := "" } (by decide) rfl

/-- C2: with a non-empty session identifier, the final headers of an SSE
start frame that went through both the shim and the middleware carry exactly
one entry under each session header name, and so do the headers of an
ordinary response that went through the middleware alone: the pair is
injected exactly once, never zero times and never twice. -/
theorem session_headers_injected_once (sid : String) (m : AsgiMessage) (r : Response)
    (hs : sid ≠ "") (_hm : m.type = "http.response.start") :
    (countKey (sse_start_response (some sid) m).headers "x-mcp-session-id" = 1 ∧
      countKey (sse_start_response (some sid) m).headers "mcp-session-id" = 1) ∧
    countKey (dispatch (some sid) r).headers "x-mcp-session-id" = 1 ∧
    countKey (dispatch (some sid) r).headers "mcp-session-id" = 1 := by
  refine ⟨?_, ?_⟩
  · simp only [sse_start_response, dispatch]
    rw [if_pos hs]
    exact pipeline_counts _ sid
  · simp only [dispatch]
    rw [if_pos hs]
    exact pipeline_counts r.headers sid

/-- Witness for C2 at the session identifier "abc", an empty start frame and
an empty response. -/
theorem session_headers_injected_once_witness :
    ((countKey (sse_start_response (some "abc")
        { type := "http.response.start" }).headers "x-mcp-session-id" = 1 ∧
      countKey (sse_start_response (some "abc")
        { type := "http.response.start" }).headers "mcp-session-id" = 1) ∧
      countKey (dispatch (some "abc")
        { status_code := 200, headers := [], body := "" }).headers
        "x-mcp-session-id" = 1 ∧
      countKey (dispatch (some "abc")
        { status_code := 200, headers := [], body := "" }).headers
        "mcp-session-id" = 1) :=
  session_headers_injected_once "abc" { type := "http.response.start" }
    { status_code := 200, headers := [], body := "" } (by decide) rfl

/-- C6: header injection touches headers only. The shim never changes the
frame type, status, body or more_body fields, for any session value and any
frame; the middleware never changes the status code or body of a response;
and on a start frame with a non-empty session identifier the shim appends
the two new entries after all pre-existing header entries, preserving them. -/
theorem injection_alters_headers_only (s : String) (sid : Option String)
    (m : AsgiMessage) (r : Response) (hs : s ≠ "")
    (hm : m.type = "http.response.start") :
    ((send_with_headers sid m).type = m.type ∧
      (send_with_headers sid m).status = m.status ∧
      (send_with_headers sid m).body = m.body ∧
      (send_with_headers sid m).more_body = m.more_body) ∧
    ((dispatch sid r).status_code = r.status_code ∧
      (dispatch sid r).body = r.body) ∧
    (send_with_headers (some s) m).headers.getD [] =
      m.headers.getD [] ++ [("x-mcp-session-id", s), ("mcp-session-id", s)] := by
  refine ⟨?_, ?_, ?_⟩
  · cases sid with
    | none => exact ⟨rfl, rfl, rfl, rfl⟩
    | some t =>
      simp only [send_with_headers]
      by_cases hc : t ≠ "" ∧ m.type = "http.response.start"
      · rw [if_pos hc]; exact ⟨rfl, rfl, rfl, rfl⟩
      · rw [if_neg hc]; exact ⟨rfl, rfl, rfl, rfl⟩
  · cases sid with
    | none => exact ⟨rfl, rfl⟩
    | some t =>
      simp only [dispatch]
      by_cases hc : t ≠ ""
      · rw [if_pos hc]; exact ⟨rfl, rfl⟩
      · rw [if_neg hc]; exact ⟨rfl, rfl⟩
  · simp only [send_with_headers]
    rw [if_pos ⟨hs, hm⟩]
    simp

/-- Witness for C6 at the session identifier "abc" and a start frame that
already carries one header entry. -/
theorem injection_alters_headers_only_witness :
    (((send_with_headers (some "abc")
        { type := "http.response.start", headers := some [("a", "b")] }).type =
        ({ type := "http.response.start", headers := some [("a", "b")] } : AsgiMessage).type ∧
      (send_with_headers (some "abc")
        { type := "http.response.start", headers := some [("a", "b")] }).status =
        ({ type := "http.response.start", headers := some [("a", "b")] } : AsgiMessage).status ∧
      (send_with_headers (some "abc")
        { type := "http.response.start", headers := some [("a", "b")] }).body =
        ({ type := "http.response.start", headers := some [("a", "b")] } : AsgiMessage).body ∧
      (send_with_headers (some "abc")
        { type := "http.response.start", headers := some [("a", "b")] }).more_body =
        ({ type := "http.response.start", headers := some [("a", "b")] } : AsgiMessage).more_body) ∧
    ((dispatch (some "abc") { status_code := 204, headers := [("a", "b")], body := "x" }).status_code =
        ({ status_code := 204, headers := [("a", "b")], body := "x" } : Response).status_code ∧
      (dispatch (some "abc") { status_code := 204, headers := [("a", "b")], body := "x" }).body =
        ({ status_code := 204, headers := [("a", "b")], body := "x" } : Response).body) ∧
    (send_with_headers (some "abc")
        { type := "http.response.start", headers := some [("a", "b")] }).headers.getD [] =
      ({ type := "http.response.start", headers := some [("a", "b")] } : AsgiMessage).headers.getD [] ++
        [("x-mcp-session-id", "abc"), ("mcp-session-id", "abc")]) :=
  injection_alters_headers_only "abc" (some "abc")
    { type := "http.response.start", headers := some [("a", "b")] }
    { status_code := 204, headers := [("a", "b")], body := "x" } (by decide) rfl

/-- C5: with no session identifier (None or the empty string), the shim
forwards every frame unchanged and the middleware returns the response with
its header set unmodified. -/
theorem no_session_id_no_headers (m : AsgiMessage) (r : Response) :
    send_with_headers none m = m ∧ send_with_headers (some "") m = m ∧
    dispatch none r = r ∧ dispatch (some "") r = r := by
  refine ⟨rfl, ?_, rfl, ?_⟩ <;> simp [send_with_headers, dispatch]

/-- C3: for each recognized auth kind, `create_servicenow_mcp` with a
complete parameter set succeeds with a ServerConfig whose AuthConfig carries
the kind tag of the request and populates exactly the matching variant
payload, the other two staying none. -/
theorem create_matches_requested_kind (url u pw cid cs k hn : String)
    (tu : Option String) :
    create_servicenow_mcp url "basic"
        { username := some u, password := some pw } =
      Except.ok { instance_url := url
                , auth := { type := AuthType.BASIC
                          , basic := some { username := u, password := pw } } } ∧
    create_servicenow_mcp url "oauth"
        { client_id := some cid, client_secret := some cs
        , username := some u, password := some pw, token_url := tu } =
      Except.ok { instance_url := url
                , auth := { type := AuthType.OAUTH
                          , oauth := some { client_id := cid, client_secret := cs
                                          , username := u, password := pw
                                          , token_url := tu } } } ∧
    create_servicenow_mcp url "api_key"
        { api_key := some k, header_name := some hn } =
      Except.ok { instance_url := url
                , auth := { type := AuthType.API_KEY
                          , api_key := some { api_key := k
                                            , header_name := hn } } } :=
  ⟨rfl, rfl, rfl⟩

/-- C4: an auth_type outside the three recognized kinds makes
`create_servicenow_mcp` fail with the ValueError carrying the offending
value inside its message, and no ServerConfig (hence no AuthConfig inside
one) is ever produced. -/
theorem create_unsupported_kind (url auth_type : String) (p : AuthParams)
    (h1 : auth_type ≠ "basic") (h2 : auth_type ≠ "oauth")
    (h3 : auth_type ≠ "api_key") :
    create_servicenow_mcp url auth_type p =
      Except.error (CreateError.valueError
        ("Unsupported auth_type: " ++ auth_type)) ∧
    (∃ pre, "Unsupported auth_type: " ++ auth_type = pre ++ auth_type) ∧
    ∀ cfg : ServerConfig,
      create_servicenow_mcp url auth_type p ≠ Except.ok cfg := by
  have he : create_servicenow_mcp url auth_type p =
      Except.error (CreateError.valueError
        ("Unsupported auth_type: " ++ auth_type)) := by
    simp [create_servicenow_mcp, h1, h2, h3]
  refine ⟨he, ⟨"Unsupported auth_type: ", rfl⟩, fun cfg hc => ?_⟩
  rw [he] at hc
  exact Except.noConfusion hc

/-- Witness for C4 at the unrecognized auth kind "token". -/
theorem create_unsupported_kind_witness :
    (create_servicenow_mcp "https://x.service-now.com" "token" {} =
      Except.error (CreateError.valueError
        ("Unsupported auth_type: " ++ "token")) ∧
    (∃ pre, "Unsupported auth_type: " ++ "token" = pre ++ "token") ∧
    ∀ cfg : ServerConfig,
      create_servicenow_mcp "https://x.service-now.com" "token" {} ≠
        Except.ok cfg) :=
  create_unsupported_kind "https://x.service-now.com" "token" {}
    (by decide) (by decide) (by decide)

/-- C9: with auth kind api_key, an absent header_name keyword falls back to
the default header name X-ServiceNow-API-Key, an explicit keyword is used
verbatim, and with the SERVICENOW_API_KEY_HEADER variable unset the main
entry point resolves exactly that default as the keyword it passes. -/
theorem api_key_header_name_default (url k hn : String)
    (env : String → Option String)
    (henv : env "SERVICENOW_API_KEY_HEADER" = none) :
    create_servicenow_mcp url "api_key" { api_key := some k } =
      Except.ok { instance_url := url
                , auth := { type := AuthType.API_KEY
                          , api_key := some { api_key := k
                                            , header_name :=
                                                "X-ServiceNow-API-Key" } } } ∧
    create_servicenow_mcp url "api_key"
        { api_key := some k, header_name := some hn } =
      Except.ok { instance_url := url
                , auth := { type := AuthType.API_KEY
                          , api_key := some { api_key := k
                                            , header_name := hn } } } ∧
    main_api_key_header env = "X-ServiceNow-API-Key" := by
  refine ⟨rfl, rfl, ?_⟩
  simp [main_api_key_header, henv]

/-- Witness for C9 at a concrete key, explicit header name and empty
environment. -/
theorem api_key_header_name_default_witness :
    (create_servicenow_mcp "https://x.service-now.com" "api_key"
        { api_key := some "K" } =
      Except.ok { instance_url := "https://x.service-now.com"
                , auth := { type := AuthType.API_KEY
                          , api_key := some { api_key := "K"
                                            , header_name :=
                                                "X-ServiceNow-API-Key" } } } ∧
    create_servicenow_mcp "https://x.service-now.com" "api_key"
        { api_key := some "K", header_name := some "My-Header" } =
      Except.ok { instance_url := "https://x.service-now.com"
                , auth := { type := AuthType.API_KEY
                          , api_key := some { api_key := "K"
                                            , header_name := "My-Header" } } } ∧
    main_api_key_header (fun _ => none) = "X-ServiceNow-API-Key") :=
  api_key_header_name_default "https://x.service-now.com" "K" "My-Header"
    (fun _ => none) rfl

/-- C7: a non-200 upstream status makes the script produce exactly the
formatted failure line carrying the status code and the body text, with no
incident output and no other action; the success branch is taken only at
status exactly 200. -/
theorem non_200_reports_failure (r : HttpReply) (h : r.status_code ≠ 200) :
    report_incidents r =
      ScriptOutput.failure ("Failed to fetch incidents: " ++
        toString r.status_code ++ " - " ++ r.text) ∧
    (∀ hd lines, report_incidents r ≠ ScriptOutput.success hd lines) ∧
    ∀ r2 : HttpReply,
      (∃ hd lines, report_incidents r2 = ScriptOutput.success hd lines) →
        r2.status_code = 200 := by
  have he : report_incidents r =
      ScriptOutput.failure ("Failed to fetch incidents: " ++
        toString r.status_code ++ " - " ++ r.text) := by
    simp [report_incidents, h]
  refine ⟨he, fun hd lines hc => ?_, fun r2 hs => ?_⟩
  · rw [he] at hc
    exact ScriptOutput.noConfusion hc
  · obtain ⟨hd, lines, hc⟩ := hs
    by_contra hne
    simp [report_incidents, hne] at hc

/-- Witness for C7 at a concrete 500 reply whose JSON even carries a result
array: it is still ignored. -/
theorem non_200_reports_failure_witness :
    (report_incidents
        { status_code := 500, text := "Server Error"
        , json := { result := some [{ number := "INC001"
                                    , short_description := "d"
                                    , opened_at := "2024-01-01" }] } } =
      ScriptOutput.failure ("Failed to fetch incidents: " ++
        toString (500 : Nat) ++ " - " ++ "Server Error") ∧
    (∀ hd lines,
      report_incidents
        { status_code := 500, text := "Server Error"
        , json := { result := some [{ number := "INC001"
                                    , short_description := "d"
                                    , opened_at := "2024-01-01" }] } } ≠
        ScriptOutput.success hd lines) ∧
    ∀ r2 : HttpReply,
      (∃ hd lines, report_incidents r2 = ScriptOutput.success hd lines) →
        r2.status_code = 200) :=
  non_200_reports_failure
    { status_code := 500, text := "Server Error"
    , json := { result := some [{ number := "INC001"
                                , short_description := "d"
                                , opened_at := "2024-01-01" }] } }
    (by decide)

/-- C8: the documented 200 reply with the single INC001 element parses
exactly one incident with its three fields verbatim; in general at status 200
the incident lines are the mapped result array, so their count equals the
length of the result array, and a reply whose JSON lacks the result key
yields zero incidents. -/
theorem incident_parsing_result (t : String) (res : List Incident) :
    report_incidents
        { status_code := 200, text := t
        , json := { result := some [{ number := "INC001"
                                    , short_description := "d"
                                    , opened_at := "2024-01-01" }] } } =
      ScriptOutput.success "Found 1 P01 incidents in the last month:"
        ["Number: INC001, Short Description: d, Opened At: 2024-01-01"] ∧
    report_incidents
        { status_code := 200, text := t, json := { result := some res } } =
      ScriptOutput.success
        ("Found " ++ toString res.length ++ " P01 incidents in the last month:")
        (res.map formatIncident) ∧
    (res.map formatIncident).length = res.length ∧
    report_incidents
        { status_code := 200, text := t, json := { result := none } } =
      ScriptOutput.success "Found 0 P01 incidents in the last month:" [] := by
  refine ⟨?_, rfl, by simp, ?_⟩
  · have hhd : "Found 1 P01 incidents in the last month:" =
        "Found " ++ toString (1 : Nat) ++ " P01 incidents in the last month:" := by
      decide
    have hln : "Number: INC001, Short Description: d, Opened At: 2024-01-01" =
        formatIncident { number := "INC001", short_description := "d"
                       , opened_at := "2024-01-01" } := by
      decide
    rw [hhd, hln]
    rfl
  · have hhd : "Found 0 P01 incidents in the last month:" =
        "Found " ++ toString (0 : Nat) ++ " P01 incidents in the last month:" := by
      decide
    rw [hhd]
    rfl

/-- The date model evaluates correctly on known dates: day 19723 after the
epoch is 2024-01-01 and day 0 is 1970-01-01. -/
theorem civilFromDays_check :
    civilFromDays 19723 = (2024, 1, 1) ∧ civilFromDays 0 = (1970, 1, 1) ∧
    one_month_ago 19753 = "2024-01-01" := by
  refine ⟨by decide, by decide, by decide⟩

/-- C10: the incident query URL is the instance URL followed by the fixed
incident-table path, with sysparm_query the priority filter on P01 joined
with opened_at at least the date 30 days before the current date in
zero-padded year-month-day form, and the URL always ends with the fixed
sysparm_limit=10 parameter, so every request asks for at most 10 records. -/
theorem incidents_url_shape (instance_url : String) (nowDays : Nat)
    (_h : 30 ≤ nowDays) :
    incidents_url instance_url nowDays =
      instance_url ++ "/api/now/table/incident?sysparm_query=" ++
        ("priority=P01^opened_at>=" ++ formatDate (civilFromDays (nowDays - 30))) ++
        "&sysparm_limit=10" ∧
    ∃ pre, incidents_url instance_url nowDays = pre ++ "&sysparm_limit=10" := by
  refine ⟨rfl, ?_⟩
  exact ⟨instance_url ++ "/api/now/table/incident?sysparm_query=" ++ query nowDays,
    rfl⟩

/-- Witness for C10 at day 19753 after the epoch, thirty days after
2024-01-01. -/
theorem incidents_url_shape_witness :
    (incidents_url "https://instance.example" 19753 =
      "https://instance.example" ++ "/api/now/table/incident?sysparm_query=" ++
        ("priority=P01^opened_at>=" ++ formatDate (civilFromDays (19753 - 30))) ++
        "&sysparm_limit=10" ∧
    ∃ pre, incidents_url "https://instance.example" 19753 =
      pre ++ "&sysparm_limit=10") :=
  incidents_url_shape "https://instance.example" 19753 (by decide)

end ServicenowMcp
